import Mathlib

/-!
# Verification of the GYM-Manager core (gym_main.py)

Shallow embedding of the data/persistence layer of `src/gym_main.py`:
the `Member` entity (BMI derivation, dict serialization) and the
`GymController` roster store (insertion-ordered mapping from member id to
`Member`, JSON-file persistence, CRUD and analytics operations).

Modelling conventions:
* Python floats are modelled as rationals (`ℚ`); `round(x, 2)` is modelled
  by `Gym.round2` (round to the nearest multiple of `1/100`).  Every claim
  compares the code's rounding with the same rounding on the spec side, so
  the tie-breaking convention never decides a claim.
* A Python dict is modelled as an insertion-ordered association list with
  unique keys; `d[k] = v` keeps the position of an existing key
  (`Gym.insertMember`) and `del d[k]` removes the key's entry.
* `datetime.now()` results are passed in explicitly as string parameters
  (`today`, `timestamp`): the code only ever stores the formatted string.
* A fallible Python operation (one that may raise) returns `Except`/`Option`;
  an exception that the code does not catch is a distinguished result
  (`Gym.LoadResult.keyError`).
* Serialized member documents (`Member.to_dict` output / `Member.from_dict`
  input) are records of `Option` fields: `none` models an absent dict key.
-/

namespace Gym

/-- `round(x, 2)`: round to two decimal places. -/
def round2 (x : ℚ) : ℚ := (round (x * 100) : ℚ) / 100

/-- Typed domain errors of `gym_main.py` (`MemberNotFoundError`,
`DuplicateIdError`). -/
inductive GymError where
  | memberNotFound
  | duplicateId
  deriving DecidableEq, Repr

/-- The `Member` entity: fields exactly as set by `Member.__init__`. -/
structure Member where
  id : String
  name : String
  age : Int
  gender : String
  phone : String
  weight : ℚ
  height : ℚ
  bmi : ℚ
  tier : String
  join_date : String
  attendance_log : List String
  deriving DecidableEq, Repr

/-- `Member._calculate_bmi`: `round(weight / height ** 2, 2)`, with the
`ZeroDivisionError` branch (division by a zero square) returning `0.0`. -/
def calculate_bmi (weight height : ℚ) : ℚ :=
  if height ^ 2 = 0 then 0 else round2 (weight / height ^ 2)

/-- `Member.__init__(m_id, name, age, gender, phone, weight, height, tier)`:
`bmi` is computed from `weight`/`height`, `join_date` is the current date
(passed in as `today`), `attendance_log` starts empty. -/
def Member.make (m_id name : String) (age : Int) (gender phone : String)
    (weight height : ℚ) (tier today : String) : Member :=
  { id := m_id, name := name, age := age, gender := gender, phone := phone,
    weight := weight, height := height,
    bmi := calculate_bmi weight height,
    tier := tier, join_date := today, attendance_log := [] }

/-- `Member.mark_attendance`: appends the current timestamp to
`attendance_log`. -/
def Member.mark_attendance (m : Member) (timestamp : String) : Member :=
  { m with attendance_log := m.attendance_log ++ [timestamp] }

/-- A serialized member document (one value of the JSON object written by
`save_data`).  A field is `none` when the corresponding dict key is absent. -/
structure Doc where
  id : Option String
  name : Option String
  age : Option Int
  gender : Option String
  phone : Option String
  weight : Option ℚ
  height : Option ℚ
  bmi : Option ℚ
  tier : Option String
  join_date : Option String
  attendance_log : Option (List String)
  deriving DecidableEq, Repr

/-- `Member.to_dict`: `self.__dict__`, i.e. every attribute of the member,
the stored `bmi` included. -/
def Member.to_dict (m : Member) : Doc :=
  { id := some m.id, name := some m.name, age := some m.age,
    gender := some m.gender, phone := some m.phone, weight := some m.weight,
    height := some m.height, bmi := some m.bmi, tier := some m.tier,
    join_date := some m.join_date, attendance_log := some m.attendance_log }

/-- `Member.from_dict`: subscripts the eight keys `id, name, age, gender,
phone, weight, height, tier` (a missing one raises `KeyError`, modelled as
`none`), rebuilds the member through the constructor (so `bmi` is recomputed
and the stored `bmi` value is never read), then overrides `join_date` and
`attendance_log` with `data.get` defaults (the fresh member's `join_date`,
i.e. `today`, and the empty list). -/
def Member.from_dict (data : Doc) (today : String) : Option Member :=
  match data.id, data.name, data.age, data.gender, data.phone,
      data.weight, data.height, data.tier with
  | some i, some n, some a, some g, some p, some w, some h, some t =>
      some { Member.make i n a g p w h t today with
             join_date := data.join_date.getD today,
             attendance_log := data.attendance_log.getD [] }
  | _, _, _, _, _, _, _, _ => none

/-- The in-memory roster: `GymController.members`, a Python dict modelled as
an insertion-ordered association list. -/
abbrev Members : Type := List (String × Member)

/-- `m_id in self.members`. -/
def hasKey (ms : Members) (k : String) : Bool :=
  List.any ms (fun p => p.1 == k)

/-- `self.members[m_id]` as a lookup that may miss. -/
def lookupMember (ms : Members) (k : String) : Option Member :=
  Option.map Prod.snd (List.find? (fun p => p.1 == k) ms)

/-- `self.members[k] = v` on a Python dict: an existing key keeps its
position and gets the new value, a new key is appended at the end. -/
def insertMember (ms : Members) (k : String) (v : Member) : Members :=
  if hasKey ms k then
    List.map (fun p => if p.1 == k then (k, v) else p) ms
  else
    ms ++ [(k, v)]

/-- `del self.members[k]`. -/
def eraseMember (ms : Members) (k : String) : Members :=
  List.filter (fun p => !(p.1 == k)) ms

/-- `GymController.create_member`: raises `DuplicateIdError` when the id is
already a key, otherwise constructs the member and stores it under `m_id`.
(The subsequent `save_data` call lives at the system layer, `sys_create`.) -/
def create_member (ms : Members) (m_id name : String) (age : Int)
    (gender phone : String) (weight height : ℚ) (tier today : String) :
    Except GymError Members :=
  if hasKey ms m_id then
    .error .duplicateId
  else
    .ok (insertMember ms m_id
      (Member.make m_id name age gender phone weight height tier today))

/-- `GymController.get_member`: raises `MemberNotFoundError` on an absent
id, otherwise returns the stored member. -/
def get_member (ms : Members) (m_id : String) : Except GymError Member :=
  match lookupMember ms m_id with
  | none => .error .memberNotFound
  | some m => .ok m

/-- `GymController.delete_member`: removes the entry when present, raises
`MemberNotFoundError` otherwise. -/
def delete_member (ms : Members) (m_id : String) : Except GymError Members :=
  if hasKey ms m_id then .ok (eraseMember ms m_id) else .error .memberNotFound

/-- `GymController.log_attendance` (in-memory part): `get_member`, then
`mark_attendance` on the found member (the dict entry is updated in place),
returning the new roster and the member's name. -/
def log_attendance (ms : Members) (m_id timestamp : String) :
    Except GymError (Members × String) :=
  match get_member ms m_id with
  | .error e => .error e
  | .ok m => .ok (insertMember ms m_id (m.mark_attendance timestamp), m.name)

/-- The analytics record returned by `get_analytics`: `tiers = none` models
the empty-roster result `{"total": 0, "avg_bmi": 0}`, which carries no tier
breakdown; otherwise `tiers` is `(Basic, Premium, VIP)` counts. -/
structure Stats where
  total : Nat
  avg_bmi : ℚ
  tiers : Option (Nat × Nat × Nat)
  deriving DecidableEq, Repr

/-- `GymController.get_analytics`. -/
def get_analytics (ms : Members) : Stats :=
  if ms.length = 0 then
    { total := 0, avg_bmi := 0, tiers := none }
  else
    { total := ms.length,
      avg_bmi := round2 ((List.map (fun p => p.2.bmi) ms).sum / ms.length),
      tiers := some
        ((List.filter (fun p => p.2.tier == "Basic") ms).length,
         (List.filter (fun p => p.2.tier == "Premium") ms).length,
         (List.filter (fun p => p.2.tier == "VIP") ms).length) }

/-- The state of the backing file as `_load_data` can encounter it:
absent; raising `IOError` on read or `json.JSONDecodeError` on parse
(`unreadable`); or successfully parsed into a JSON object whose values are
the member documents (`parsed` — the object's keys are ignored by the code,
which iterates `data.values()`). -/
inductive FileState where
  | absent
  | unreadable
  | parsed (docs : List Doc)

/-- Outcome of `_load_data`: a populated roster together with whether the
corruption warning was printed, or an uncaught exception (`KeyError` from
`Member.from_dict`) that escapes the constructor and crashes the process. -/
inductive LoadResult where
  | ok (ms : Members) (warned : Bool)
  | keyError
  deriving DecidableEq

/-- The loading loop of `_load_data`: each document is deserialized and
stored under the member's own `id`; a document missing a required key makes
the whole load fail (uncaught `KeyError`). -/
def load_docs (docs : List Doc) (today : String) : Option Members :=
  List.foldlM
    (fun acc d =>
      Option.map (fun m => insertMember acc m.id m) (Member.from_dict d today))
    [] docs

/-- `GymController._load_data`: an absent file leaves the roster empty with
no warning; an unreadable or unparsable file is caught
(`json.JSONDecodeError, IOError`) and leaves the roster empty with a
warning; a parsed file is loaded by `load_docs`, and a `KeyError` raised
there is not caught. -/
def load_data : FileState → String → LoadResult
  | .absent, _ => .ok [] false
  | .unreadable, _ => .ok [] true
  | .parsed docs, today =>
      match load_docs docs today with
      | some ms => .ok ms false
      | none => .keyError

/-- The document `save_data` writes: `{m_id: m.to_dict() for m_id, m in
self.members.items()}`. -/
def serialize (ms : Members) : List (String × Doc) :=
  List.map (fun p => (p.1, p.2.to_dict)) ms

/-- In-memory roster together with the persisted file: `disk = none` models
a file that does not exist yet (or whose content is not the serialization of
any roster). -/
structure Sys where
  members : Members
  disk : Option (List (String × Doc))
  deriving DecidableEq

/-- `GymController.save_data`: writes the serialization of the in-memory
mapping; an `IOError` (`writeOk = false`) is caught and reported, leaving
the in-memory state (and, in this model, the previous file content)
untouched. -/
def save_data (s : Sys) (writeOk : Bool) : Sys :=
  if writeOk then { s with disk := some (serialize s.members) } else s

/-- Observable outcome of one controller operation: the resulting state,
the raised domain error if any, whether `save_data` was invoked, and the
returned value (`log_attendance` returns the member's name). -/
structure OpOut where
  sys : Sys
  err : Option GymError
  saveCalled : Bool
  ret : Option String
  deriving DecidableEq

/-- `create_member` at the system level: on success the new roster is saved
immediately; on `DuplicateIdError` nothing changes and no save happens. -/
def sys_create (s : Sys) (m_id name : String) (age : Int)
    (gender phone : String) (weight height : ℚ) (tier today : String)
    (writeOk : Bool) : OpOut :=
  match create_member s.members m_id name age gender phone weight height
      tier today with
  | .error e => { sys := s, err := some e, saveCalled := false, ret := none }
  | .ok ms' =>
      { sys := save_data { members := ms', disk := s.disk } writeOk,
        err := none, saveCalled := true, ret := none }

/-- `delete_member` at the system level. -/
def sys_delete (s : Sys) (m_id : String) (writeOk : Bool) : OpOut :=
  match delete_member s.members m_id with
  | .error e => { sys := s, err := some e, saveCalled := false, ret := none }
  | .ok ms' =>
      { sys := save_data { members := ms', disk := s.disk } writeOk,
        err := none, saveCalled := true, ret := none }

/-- `log_attendance` at the system level: on success the mutated roster is
saved and the member's name returned. -/
def sys_log_attendance (s : Sys) (m_id timestamp : String) (writeOk : Bool) :
    OpOut :=
  match log_attendance s.members m_id timestamp with
  | .error e => { sys := s, err := some e, saveCalled := false, ret := none }
  | .ok (ms', name) =>
      { sys := save_data { members := ms', disk := s.disk } writeOk,
        err := none, saveCalled := true, ret := some name }

/-- `get_member` at the system level: read-only, never saves. -/
def sys_get (s : Sys) (m_id : String) : Except GymError Member :=
  get_member s.members m_id

/-- Rosters reachable by the program: populated by `_load_data` at
construction, then evolved only by the successful mutating operations. -/
inductive Reachable : Members → Prop where
  | boot (fs : FileState) (today : String) (ms : Members) (warned : Bool) :
      load_data fs today = .ok ms warned → Reachable ms
  | create (ms : Members) (m_id name : String) (age : Int)
      (gender phone : String) (weight height : ℚ) (tier today : String)
      (ms' : Members) : Reachable ms →
      create_member ms m_id name age gender phone weight height tier today
        = .ok ms' → Reachable ms'
  | delete (ms : Members) (m_id : String) (ms' : Members) : Reachable ms →
      delete_member ms m_id = .ok ms' → Reachable ms'
  | attend (ms : Members) (m_id timestamp : String) (ms' : Members)
      (name : String) : Reachable ms →
      log_attendance ms m_id timestamp = .ok (ms', name) → Reachable ms'

/-- The key-identity invariant as an executable check: every entry is
stored under its member's own `id`. -/
def keysMatch (ms : Members) : Bool :=
  List.all ms (fun p => p.1 == p.2.id)

/-- `n` successive in-memory `log_attendance` calls on the same id, with the
given timestamps in call order; fails as soon as one call fails. -/
def logMany (ms : Members) (m_id : String) (timestamps : List String) :
    Except GymError Members :=
  List.foldlM
    (fun acc ts => Except.map Prod.fst (log_attendance acc m_id ts))
    ms timestamps

/-- A concrete member used to instantiate theorems: the spec's scenario
`Create("M1","Ann",30,"F","555",60,1.6,"Basic")`. -/
def annMember : Member :=
  Member.make "M1" "Ann" 30 "F" "555" 60 (8/5) "Basic" "2026-01-01"

/-- A concrete one-member roster. -/
def roster₀ : Members := [("M1", annMember)]

/-- Two more concrete members, with tiers `Basic` and `VIP`. -/
def bobMember : Member :=
  Member.make "M2" "Bob" 40 "M" "556" 70 (9/5) "Basic" "2026-01-01"

def cayMember : Member :=
  Member.make "M3" "Cay" 25 "O" "557" 80 (7/4) "VIP" "2026-01-01"

/-- A concrete three-member roster with tiers `Basic, Basic, VIP`. -/
def roster₃ : Members :=
  [("M1", annMember), ("M2", bobMember), ("M3", cayMember)]

/-- A concrete system state: the roster above, no file written yet. -/
def sys₀ : Sys := { members := roster₀, disk := none }

/-- A member document with every key absent. -/
def badDoc : Doc :=
  { id := none, name := none, age := none, gender := none, phone := none,
    weight := none, height := none, bmi := none, tier := none,
    join_date := none, attendance_log := none }

/-! ## Helper lemmas on the roster operations -/

theorem lookupMember_eq_none (ms : Members) (k : String)
    (h : hasKey ms k = false) : lookupMember ms k = none := by
  induction ms with
  | nil => rfl
  | cons q t ih =>
      rw [hasKey, List.any_cons, Bool.or_eq_false_iff] at h
      simp only [lookupMember, List.find?, h.1]
      exact ih h.2

theorem lookupMember_isSome (ms : Members) (k : String)
    (h : hasKey ms k = true) : (lookupMember ms k).isSome = true := by
  induction ms with
  | nil => simp [hasKey] at h
  | cons q t ih =>
      rw [hasKey, List.any_cons] at h
      cases hq : q.1 == k with
      | false =>
          rw [hq, Bool.false_or] at h
          simp only [lookupMember, List.find?, hq]
          exact ih h
      | true =>
          simp only [lookupMember, List.find?, hq]
          rfl

theorem lookupMember_map_replace (ms : Members) (k : String) (v : Member)
    (hk : hasKey ms k = true) :
    lookupMember (List.map (fun p => if p.1 == k then (k, v) else p) ms) k
      = some v := by
  induction ms with
  | nil => simp [hasKey] at hk
  | cons q t ih =>
      rw [hasKey, List.any_cons] at hk
      cases hq : q.1 == k with
      | false =>
          rw [hq, Bool.false_or] at hk
          rw [List.map_cons, if_neg (by simp [hq])]
          simp only [lookupMember, List.find?, hq]
          exact ih hk
      | true =>
          rw [List.map_cons, if_pos hq]
          simp only [lookupMember, List.find?, beq_self_eq_true]
          rfl

theorem lookupMember_append_single (ms : Members) (k : String) (v : Member)
    (hk : hasKey ms k = false) :
    lookupMember (ms ++ [(k, v)]) k = some v := by
  induction ms with
  | nil =>
      simp only [List.nil_append, lookupMember, List.find?, beq_self_eq_true]
      rfl
  | cons q t ih =>
      rw [hasKey, List.any_cons, Bool.or_eq_false_iff] at hk
      rw [List.cons_append]
      simp only [lookupMember, List.find?, hk.1]
      exact ih hk.2

theorem lookupMember_insertMember_self (ms : Members) (k : String)
    (v : Member) : lookupMember (insertMember ms k v) k = some v := by
  rw [insertMember]
  cases hk : hasKey ms k with
  | false =>
      rw [if_neg (by simp)]
      exact lookupMember_append_single ms k v hk
  | true =>
      rw [if_pos rfl]
      exact lookupMember_map_replace ms k v hk

theorem mem_insertMember (ms : Members) (k : String) (v : Member)
    (p : String × Member) (hp : p ∈ insertMember ms k v) :
    p ∈ ms ∨ p = (k, v) := by
  rw [insertMember] at hp
  cases hk : hasKey ms k with
  | false =>
      rw [hk, if_neg (by simp)] at hp
      rcases List.mem_append.mp hp with h | h
      · exact Or.inl h
      · exact Or.inr (by simpa using h)
  | true =>
      rw [hk, if_pos rfl] at hp
      obtain ⟨q, hq, hpq⟩ := List.mem_map.mp hp
      cases hqk : q.1 == k with
      | false => rw [if_neg (by simp [hqk])] at hpq; exact Or.inl (hpq ▸ hq)
      | true => rw [if_pos hqk] at hpq; exact Or.inr hpq.symm

theorem lookupMember_mem (ms : Members) (k : String) (m : Member)
    (h : lookupMember ms k = some m) :
    ∃ p ∈ ms, (p.1 == k) = true ∧ p.2 = m := by
  rw [lookupMember] at h
  cases hf : List.find? (fun p => p.1 == k) ms with
  | none => rw [hf] at h; exact absurd h (by simp)
  | some q =>
      rw [hf] at h
      have hpq := List.find?_some hf
      exact ⟨q, List.mem_of_find?_eq_some hf, by simpa using hpq, by simpa using h⟩

theorem keysMatch_insertMember (ms : Members) (k : String) (v : Member)
    (hk : k = v.id) (h : keysMatch ms = true) :
    keysMatch (insertMember ms k v) = true := by
  rw [keysMatch, List.all_eq_true] at h ⊢
  intro p hp
  rcases mem_insertMember ms k v p hp with hm | he
  · exact h p hm
  · subst he; simpa using hk

theorem keysMatch_erase (ms : Members) (k : String)
    (h : keysMatch ms = true) : keysMatch (eraseMember ms k) = true := by
  rw [keysMatch, List.all_eq_true] at h ⊢
  intro p hp
  exact h p (List.mem_of_mem_filter hp)

theorem load_docs_go_keysMatch (docs : List Doc) (today : String)
    (acc ms : Members) (hacc : keysMatch acc = true)
    (h : List.foldlM
      (fun acc d =>
        Option.map (fun m => insertMember acc m.id m)
          (Member.from_dict d today)) acc docs = some ms) :
    keysMatch ms = true := by
  induction docs generalizing acc with
  | nil =>
      simp only [List.foldlM] at h
      cases h
      exact hacc
  | cons d ds ih =>
      rw [List.foldlM_cons] at h
      cases hfd : Member.from_dict d today with
      | none => rw [hfd] at h; exact absurd h (by simp)
      | some m =>
          rw [hfd] at h
          simp only [Option.map_some', Option.some_bind] at h
          exact ih _ (keysMatch_insertMember acc m.id m rfl hacc) h

theorem load_docs_keysMatch (docs : List Doc) (today : String) (ms : Members)
    (h : load_docs docs today = some ms) : keysMatch ms = true :=
  load_docs_go_keysMatch docs today [] ms rfl h

theorem tier_buckets (ms : Members) :
    List.countP (fun p => p.2.tier == "Basic") ms
      + List.countP (fun p => p.2.tier == "Premium") ms
      + List.countP (fun p => p.2.tier == "VIP") ms
      = List.countP
          (fun p =>
            p.2.tier == "Basic" || p.2.tier == "Premium" || p.2.tier == "VIP")
          ms := by
  induction ms with
  | nil => rfl
  | cons q t ih =>
      simp only [List.countP_cons]
      cases hb : q.2.tier == "Basic" <;> cases hp : q.2.tier == "Premium" <;>
        cases hv : q.2.tier == "VIP" <;>
        simp only [hb, hp, hv, Bool.or_false, Bool.false_or, Bool.or_true,
          Bool.true_or, Bool.or_self, if_true, if_false] <;>
        simp_all <;> omega

/-! ## Claim theorems -/

/-- C1: `from_dict (to_dict m)` reproduces `id, name, age, gender, phone,
weight, height, tier, join_date, attendance_log` exactly and recomputes
`bmi` from the stored weight and height (a stale stored `bmi` is replaced by
the recomputed one), and the round-trip is idempotent under repetition. -/
theorem member_serialize_roundtrip (m : Member) (today today₂ : String) :
    Member.from_dict (Member.to_dict m) today
      = some { m with bmi := calculate_bmi m.weight m.height } ∧
    Member.from_dict
        (Member.to_dict { m with bmi := calculate_bmi m.weight m.height })
        today₂
      = some { m with bmi := calculate_bmi m.weight m.height } :=
  ⟨rfl, rfl⟩

/-- C2: the `bmi` computed at `Member` construction is
`round(weight / height ** 2, 2)` when `height ≠ 0`, and `0.0` when
`height = 0`; construction is total, so no error is raised in either
case. -/
theorem bmi_at_construction (m_id name : String) (age : Int)
    (gender phone : String) (weight height : ℚ) (tier today : String) :
    (height ≠ 0 →
      (Member.make m_id name age gender phone weight height tier today).bmi
        = round2 (weight / height ^ 2)) ∧
    (height = 0 →
      (Member.make m_id name age gender phone weight height tier today).bmi
        = 0) := by
  constructor
  · intro h
    have hsq : height ^ 2 ≠ 0 := pow_ne_zero 2 h
    simp [Member.make, calculate_bmi, hsq]
  · intro h
    simp [Member.make, calculate_bmi, h]

/-- Witness for C2 at the spec's scenario (`weight = 60`, `height = 1.6`)
and at `height = 0`. -/
theorem bmi_at_construction_witness :
    (Member.make "M1" "Ann" 30 "F" "555" 60 (8/5) "Basic" "2026-01-01").bmi
      = round2 (60 / (8/5 : ℚ) ^ 2) ∧
    (Member.make "M2" "Bob" 40 "M" "556" 60 0 "Basic" "2026-01-01").bmi
      = 0 :=
  ⟨(bmi_at_construction "M1" "Ann" 30 "F" "555" 60 (8/5) "Basic"
      "2026-01-01").1 (by norm_num),
   (bmi_at_construction "M2" "Bob" 40 "M" "556" 60 0 "Basic"
      "2026-01-01").2 rfl⟩

/-- C3: `create_member` with an id already in the mapping raises
`DuplicateIdError` and changes nothing: same in-memory mapping, same
persisted file, no `save_data` call. -/
theorem create_duplicate_id (s : Sys) (m_id name : String) (age : Int)
    (gender phone : String) (weight height : ℚ) (tier today : String)
    (writeOk : Bool) (hdup : hasKey s.members m_id = true) :
    sys_create s m_id name age gender phone weight height tier today writeOk
      = { sys := s, err := some .duplicateId, saveCalled := false,
          ret := none } := by
  simp [sys_create, create_member, hdup]

/-- Witness for C3: re-creating `"M1"` on the one-member roster fails and
leaves the state untouched. -/
theorem create_duplicate_id_witness :
    sys_create sys₀ "M1" "Bob" 40 "M" "556" 70 (9/5) "VIP" "2026-01-02" true
      = { sys := sys₀, err := some .duplicateId, saveCalled := false,
          ret := none } :=
  create_duplicate_id sys₀ "M1" "Bob" 40 "M" "556" 70 (9/5) "VIP"
    "2026-01-02" true rfl

/-- C4: `get_member`, `delete_member` and `log_attendance` on an id absent
from the mapping raise `MemberNotFoundError` and change nothing: no member
is added, removed or mutated, and no `save_data` call happens. -/
theorem absent_id_operations (s : Sys) (m_id timestamp : String)
    (writeOk : Bool) (habs : hasKey s.members m_id = false) :
    sys_get s m_id = .error .memberNotFound ∧
    sys_delete s m_id writeOk
      = { sys := s, err := some .memberNotFound, saveCalled := false,
          ret := none } ∧
    sys_log_attendance s m_id timestamp writeOk
      = { sys := s, err := some .memberNotFound, saveCalled := false,
          ret := none } := by
  have hlk := lookupMember_eq_none s.members m_id habs
  refine ⟨?_, ?_, ?_⟩
  · simp [sys_get, get_member, hlk]
  · simp [sys_delete, delete_member, habs]
  · simp [sys_log_attendance, log_attendance, get_member, hlk]

/-- Witness for C4: the id `"MX"` is absent from the one-member roster. -/
theorem absent_id_operations_witness :
    sys_get sys₀ "MX" = .error .memberNotFound ∧
    sys_delete sys₀ "MX" true
      = { sys := sys₀, err := some .memberNotFound, saveCalled := false,
          ret := none } ∧
    sys_log_attendance sys₀ "MX" "2026-01-02 10:00:00" true
      = { sys := sys₀, err := some .memberNotFound, saveCalled := false,
          ret := none } :=
  absent_id_operations sys₀ "MX" "2026-01-02 10:00:00" true rfl

/-- C5: analytics on an empty roster is `{total: 0, avg_bmi: 0}` with no
tier breakdown; on a non-empty roster, `total` is the member count,
`avg_bmi` the mean of the members' `bmi` rounded to two decimals, and the
tier counts tally exact string matches against `"Basic"`, `"Premium"` and
`"VIP"` — a member with any other tier string falls into no bucket (the
three buckets together count only the members with a recognized tier). -/
theorem analytics_spec (ms : Members) (hne : ms ≠ []) :
    get_analytics [] = { total := 0, avg_bmi := 0, tiers := none } ∧
    (get_analytics ms).total = ms.length ∧
    (get_analytics ms).avg_bmi
      = round2 ((List.map (fun p => p.2.bmi) ms).sum / ms.length) ∧
    (get_analytics ms).tiers = some
      (List.countP (fun p => p.2.tier == "Basic") ms,
       List.countP (fun p => p.2.tier == "Premium") ms,
       List.countP (fun p => p.2.tier == "VIP") ms) ∧
    List.countP (fun p => p.2.tier == "Basic") ms
      + List.countP (fun p => p.2.tier == "Premium") ms
      + List.countP (fun p => p.2.tier == "VIP") ms
      = List.countP
          (fun p =>
            p.2.tier == "Basic" || p.2.tier == "Premium" || p.2.tier == "VIP")
          ms := by
  have hlen : ms.length ≠ 0 := fun h => hne (List.length_eq_zero.mp h)
  refine ⟨rfl, ?_, ?_, ?_, tier_buckets ms⟩
  · simp [get_analytics, hlen]
  · simp [get_analytics, hlen]
  · simp [get_analytics, hlen, List.countP_eq_length_filter]

/-- Witness for C5 on the concrete roster with tiers `Basic, Basic, VIP`. -/
theorem analytics_spec_witness :
    get_analytics [] = { total := 0, avg_bmi := 0, tiers := none } ∧
    (get_analytics roster₃).total = roster₃.length ∧
    (get_analytics roster₃).avg_bmi
      = round2 ((List.map (fun p => p.2.bmi) roster₃).sum / roster₃.length) ∧
    (get_analytics roster₃).tiers = some
      (List.countP (fun p => p.2.tier == "Basic") roster₃,
       List.countP (fun p => p.2.tier == "Premium") roster₃,
       List.countP (fun p => p.2.tier == "VIP") roster₃) ∧
    List.countP (fun p => p.2.tier == "Basic") roster₃
      + List.countP (fun p => p.2.tier == "Premium") roster₃
      + List.countP (fun p => p.2.tier == "VIP") roster₃
      = List.countP
          (fun p =>
            p.2.tier == "Basic" || p.2.tier == "Premium" || p.2.tier == "VIP")
          roster₃ :=
  analytics_spec roster₃ (by unfold roster₃; exact List.cons_ne_nil _ _)

/-- C6 counterexample: content that parses as a JSON object but whose entry
is missing required member keys makes `_load_data` raise an uncaught
`KeyError` — the process crashes instead of starting empty with a
warning. -/
theorem load_crash_counterexample :
    load_data (FileState.parsed [badDoc]) "2026-01-01"
      = LoadResult.keyError := rfl

/-- C6 amended: an absent backing file leaves the store empty without
error and an unreadable or unparsable file leaves the store empty with a
warning; but a file that parses into a document whose entries miss a
required member key raises an uncaught `KeyError` (only
`json.JSONDecodeError` and `IOError` are caught), crashing the process. -/
theorem load_error_handling (today : String) (docs : List Doc)
    (h : load_docs docs today = none) :
    load_data FileState.absent today = LoadResult.ok [] false ∧
    load_data FileState.unreadable today = LoadResult.ok [] true ∧
    load_data (FileState.parsed docs) today = LoadResult.keyError := by
  refine ⟨rfl, rfl, ?_⟩
  simp [load_data, h]

/-- Witness for C6 (amended) at a concrete malformed document list. -/
theorem load_error_handling_witness :
    load_data FileState.absent "2026-01-01" = LoadResult.ok [] false ∧
    load_data FileState.unreadable "2026-01-01" = LoadResult.ok [] true ∧
    load_data (FileState.parsed [badDoc]) "2026-01-01"
      = LoadResult.keyError :=
  load_error_handling "2026-01-01" [badDoc] rfl

theorem logMany_lookup (ms : Members) (m_id : String) (m : Member)
    (timestamps : List String) (h : lookupMember ms m_id = some m) :
    Except.map (fun ms' => lookupMember ms' m_id) (logMany ms m_id timestamps)
      = .ok (some { m with
          attendance_log := m.attendance_log ++ timestamps }) := by
  induction timestamps generalizing ms m with
  | nil =>
      show Except.map (fun ms' => lookupMember ms' m_id) (Except.ok ms) = _
      simp [Except.map, h]
  | cons ts tss ih =>
      have hstep : log_attendance ms m_id ts
          = .ok (insertMember ms m_id (m.mark_attendance ts), m.name) := by
        simp [log_attendance, get_member, h]
      have hlk := lookupMember_insertMember_self ms m_id (m.mark_attendance ts)
      have htail := ih (insertMember ms m_id (m.mark_attendance ts))
        (m.mark_attendance ts) hlk
      simp only [logMany, List.foldlM_cons, hstep] at htail ⊢
      rw [show m.attendance_log ++ ts :: tss
        = (m.attendance_log ++ [ts]) ++ tss by simp]
      exact htail

/-- C7: attendance is append-only and order-preserving — a successful
`log_attendance` appends exactly one timestamp at the end of the member's
`attendance_log` and returns the member's name, and after `n` successful
calls the log is the original log followed by the `n` timestamps in call
order (so a log that started empty has length `n`, chronologically
ordered). -/
theorem attendance_append_only (ms : Members) (m_id : String) (m : Member)
    (ts : String) (timestamps : List String)
    (h : lookupMember ms m_id = some m) :
    log_attendance ms m_id ts
      = .ok (insertMember ms m_id (m.mark_attendance ts), m.name) ∧
    (m.mark_attendance ts).attendance_log = m.attendance_log ++ [ts] ∧
    Except.map (fun ms' => lookupMember ms' m_id) (logMany ms m_id timestamps)
      = .ok (some { m with
          attendance_log := m.attendance_log ++ timestamps }) ∧
    (m.attendance_log ++ timestamps).length
      = m.attendance_log.length + timestamps.length := by
  refine ⟨?_, rfl, logMany_lookup ms m_id m timestamps h, by simp⟩
  simp [log_attendance, get_member, h]

/-- Witness for C7: two check-ins for `"M1"` on the one-member roster. -/
theorem attendance_append_only_witness :
    log_attendance roster₀ "M1" "2026-01-02 10:00:00"
      = .ok (insertMember roster₀ "M1"
          (annMember.mark_attendance "2026-01-02 10:00:00"),
          annMember.name) ∧
    (annMember.mark_attendance "2026-01-02 10:00:00").attendance_log
      = annMember.attendance_log ++ ["2026-01-02 10:00:00"] ∧
    Except.map (fun ms' => lookupMember ms' "M1")
        (logMany roster₀ "M1"
          ["2026-01-02 10:00:00", "2026-01-03 09:30:00"])
      = .ok (some { annMember with
          attendance_log := annMember.attendance_log
            ++ ["2026-01-02 10:00:00", "2026-01-03 09:30:00"] }) ∧
    (annMember.attendance_log
        ++ ["2026-01-02 10:00:00", "2026-01-03 09:30:00"]).length
      = annMember.attendance_log.length + 2 :=
  attendance_append_only roster₀ "M1" annMember "2026-01-02 10:00:00"
    ["2026-01-02 10:00:00", "2026-01-03 09:30:00"] rfl

/-- C8: every successful mutating operation (create, delete, log
attendance) invokes `save_data` right after the in-memory mutation;
when the write succeeds the persisted document is the serialization of the
resulting in-memory mapping, and when the write fails the in-memory
mutation is retained (not rolled back) while the file keeps its previous
content, so memory and disk diverge. -/
theorem save_discipline (s : Sys) (c_id name : String) (age : Int)
    (gender phone : String) (weight height : ℚ) (tier today : String)
    (d_id l_id timestamp : String) (writeOk : Bool)
    (hc : hasKey s.members c_id = false)
    (hd : hasKey s.members d_id = true)
    (hl : hasKey s.members l_id = true) :
    (sys_create s c_id name age gender phone weight height tier today
        writeOk).saveCalled = true ∧
    (sys_create s c_id name age gender phone weight height tier today
        writeOk).err = none ∧
    (sys_create s c_id name age gender phone weight height tier today
        true).sys.disk
      = some (serialize (sys_create s c_id name age gender phone weight
          height tier today true).sys.members) ∧
    (sys_create s c_id name age gender phone weight height tier today
        false).sys.members
      = insertMember s.members c_id
          (Member.make c_id name age gender phone weight height tier today) ∧
    (sys_create s c_id name age gender phone weight height tier today
        false).sys.disk = s.disk ∧
    (sys_delete s d_id writeOk).saveCalled = true ∧
    (sys_delete s d_id writeOk).err = none ∧
    (sys_delete s d_id true).sys.disk
      = some (serialize (sys_delete s d_id true).sys.members) ∧
    (sys_delete s d_id false).sys.members = eraseMember s.members d_id ∧
    (sys_delete s d_id false).sys.disk = s.disk ∧
    (sys_log_attendance s l_id timestamp writeOk).saveCalled = true ∧
    (sys_log_attendance s l_id timestamp writeOk).err = none ∧
    (sys_log_attendance s l_id timestamp true).sys.disk
      = some (serialize
          (sys_log_attendance s l_id timestamp true).sys.members) ∧
    Except.map Prod.fst (log_attendance s.members l_id timestamp)
      = .ok ((sys_log_attendance s l_id timestamp false).sys.members) ∧
    (sys_log_attendance s l_id timestamp false).sys.disk = s.disk := by
  obtain ⟨m, hm⟩ :=
    Option.isSome_iff_exists.mp (lookupMember_isSome s.members l_id hl)
  refine ⟨?_, ?_, ?_, ?_, ?_, ?_, ?_, ?_, ?_, ?_, ?_, ?_, ?_, ?_, ?_⟩ <;>
    simp [sys_create, sys_delete, sys_log_attendance, create_member,
      delete_member, log_attendance, get_member, hc, hd, hl, hm, save_data,
      serialize, Except.map]

/-- Witness for C8: create `"M2"`, delete `"M1"` and check in `"M1"` on the
concrete one-member system. -/
theorem save_discipline_witness :
    (sys_create sys₀ "M2" "Bob" 40 "M" "556" 70 (9/5) "Basic" "2026-01-02"
        true).saveCalled = true ∧
    (sys_create sys₀ "M2" "Bob" 40 "M" "556" 70 (9/5) "Basic" "2026-01-02"
        true).err = none ∧
    (sys_create sys₀ "M2" "Bob" 40 "M" "556" 70 (9/5) "Basic" "2026-01-02"
        true).sys.disk
      = some (serialize (sys_create sys₀ "M2" "Bob" 40 "M" "556" 70 (9/5)
          "Basic" "2026-01-02" true).sys.members) ∧
    (sys_create sys₀ "M2" "Bob" 40 "M" "556" 70 (9/5) "Basic" "2026-01-02"
        false).sys.members
      = insertMember sys₀.members "M2"
          (Member.make "M2" "Bob" 40 "M" "556" 70 (9/5) "Basic"
            "2026-01-02") ∧
    (sys_create sys₀ "M2" "Bob" 40 "M" "556" 70 (9/5) "Basic" "2026-01-02"
        false).sys.disk = sys₀.disk ∧
    (sys_delete sys₀ "M1" true).saveCalled = true ∧
    (sys_delete sys₀ "M1" true).err = none ∧
    (sys_delete sys₀ "M1" true).sys.disk
      = some (serialize (sys_delete sys₀ "M1" true).sys.members) ∧
    (sys_delete sys₀ "M1" false).sys.members
      = eraseMember sys₀.members "M1" ∧
    (sys_delete sys₀ "M1" false).sys.disk = sys₀.disk ∧
    (sys_log_attendance sys₀ "M1" "2026-01-02 10:00:00" true).saveCalled
      = true ∧
    (sys_log_attendance sys₀ "M1" "2026-01-02 10:00:00" true).err = none ∧
    (sys_log_attendance sys₀ "M1" "2026-01-02 10:00:00" true).sys.disk
      = some (serialize (sys_log_attendance sys₀ "M1" "2026-01-02 10:00:00"
          true).sys.members) ∧
    Except.map Prod.fst (log_attendance sys₀.members "M1"
        "2026-01-02 10:00:00")
      = .ok ((sys_log_attendance sys₀ "M1" "2026-01-02 10:00:00"
          false).sys.members) ∧
    (sys_log_attendance sys₀ "M1" "2026-01-02 10:00:00" false).sys.disk
      = sys₀.disk :=
  save_discipline sys₀ "M2" "Bob" 40 "M" "556" 70 (9/5) "Basic" "2026-01-02"
    "M1" "M1" "2026-01-02 10:00:00" true rfl rfl rfl

/-- C9: in every roster state reachable by load, create, delete and
log-attendance, every entry of the mapping is stored under a key equal to
that member's own `id` field. -/
theorem reachable_key_identity (ms : Members) (h : Reachable ms) :
    keysMatch ms = true := by
  induction h with
  | boot fs today ms w hload =>
      cases fs with
      | absent =>
          injection hload with h1 h2
          subst h1
          rfl
      | unreadable =>
          injection hload with h1 h2
          subst h1
          rfl
      | parsed docs =>
          rw [load_data] at hload
          cases hld : load_docs docs today with
          | none => rw [hld] at hload; exact absurd hload (by simp)
          | some ms₀ =>
              rw [hld] at hload
              injection hload with h1 h2
              exact h1 ▸ load_docs_keysMatch docs today ms₀ hld
  | create ms m_id name age gender phone weight height tier today ms' hr hc
      ih =>
      rw [create_member] at hc
      cases hk : hasKey ms m_id with
      | true => rw [hk] at hc; simp at hc
      | false =>
          rw [hk] at hc
          simp only [Bool.false_eq_true, if_false] at hc
          injection hc with hc
          subst hc
          exact keysMatch_insertMember ms m_id
            (Member.make m_id name age gender phone weight height tier today)
            rfl ih
  | delete ms m_id ms' hr hd ih =>
      rw [delete_member] at hd
      cases hk : hasKey ms m_id with
      | false => rw [hk] at hd; simp at hd
      | true =>
          rw [hk] at hd
          simp only [if_true] at hd
          injection hd with hd
          subst hd
          exact keysMatch_erase ms m_id ih
  | attend ms m_id ts ms' name hr hl ih =>
      rw [log_attendance] at hl
      cases hg : get_member ms m_id with
      | error e => rw [hg] at hl; exact absurd hl (by simp)
      | ok m =>
          rw [hg] at hl
          injection hl with hpair
          injection hpair with h1 h2
          subst h1
          have hglk : lookupMember ms m_id = some m := by
            rw [get_member] at hg
            cases hlk : lookupMember ms m_id with
            | none => rw [hlk] at hg; exact absurd hg (by simp)
            | some m₂ =>
                rw [hlk] at hg
                injection hg with h3
                exact congrArg some h3
          obtain ⟨p, hp, hpk, hpm⟩ := lookupMember_mem ms m_id m hglk
          have hall : (p.1 == p.2.id) = true := List.all_eq_true.mp ih p hp
          have hid : m_id = m.id := by
            rw [beq_iff_eq] at hpk hall
            rw [← hpk, hall, hpm]
          exact keysMatch_insertMember ms m_id (m.mark_attendance ts) hid ih

/-- Witness for C9: the roster reached by loading an absent file and then
creating `"M1"` satisfies the key-identity check. -/
theorem reachable_key_identity_witness :
    keysMatch (insertMember [] "M1"
      (Member.make "M1" "Ann" 30 "F" "555" 60 (8/5) "Basic" "2026-01-01"))
      = true :=
  reachable_key_identity _
    (Reachable.create [] "M1" "Ann" 30 "F" "555" 60 (8/5) "Basic"
      "2026-01-01" _
      (Reachable.boot FileState.absent "2026-01-01" [] false rfl) rfl)

/-- C10: `from_dict` succeeds exactly when the eight keys `id, name, age,
gender, phone, weight, height, tier` are all present (a missing one raises
`KeyError`), and on success `join_date` defaults to the current date and
`attendance_log` to the empty sequence when their keys are absent. -/
theorem from_dict_domain (data : Doc) (today : String) :
    ((Member.from_dict data today).isSome = true ↔
      data.id.isSome = true ∧ data.name.isSome = true ∧
      data.age.isSome = true ∧ data.gender.isSome = true ∧
      data.phone.isSome = true ∧ data.weight.isSome = true ∧
      data.height.isSome = true ∧ data.tier.isSome = true) ∧
    (∀ m, Member.from_dict data today = some m →
      m.join_date = data.join_date.getD today ∧
      m.attendance_log = data.attendance_log.getD []) := by
  obtain ⟨i, n, a, g, p, w, h, b, t, jd, al⟩ := data
  constructor
  · cases i <;> cases n <;> cases a <;> cases g <;> cases p <;> cases w <;>
      cases h <;> cases t <;> simp [Member.from_dict]
  · intro m hm
    cases i <;> cases n <;> cases a <;> cases g <;> cases p <;> cases w <;>
      cases h <;> cases t <;>
      first
        | (injection hm with hm; subst hm; exact ⟨rfl, rfl⟩)
        | injection hm

/-- Witness for C10: the serialization of a concrete member has all eight
keys and round-trips, with the optional keys present. -/
theorem from_dict_domain_witness :
    ((Member.from_dict (Member.to_dict annMember) "2026-01-01").isSome = true
      ↔
      (Member.to_dict annMember).id.isSome = true ∧
      (Member.to_dict annMember).name.isSome = true ∧
      (Member.to_dict annMember).age.isSome = true ∧
      (Member.to_dict annMember).gender.isSome = true ∧
      (Member.to_dict annMember).phone.isSome = true ∧
      (Member.to_dict annMember).weight.isSome = true ∧
      (Member.to_dict annMember).height.isSome = true ∧
      (Member.to_dict annMember).tier.isSome = true) ∧
    (annMember.join_date
        = (Member.to_dict annMember).join_date.getD "2026-01-01" ∧
      annMember.attendance_log
        = (Member.to_dict annMember).attendance_log.getD []) :=
  ⟨(from_dict_domain (Member.to_dict annMember) "2026-01-01").1,
   (from_dict_domain (Member.to_dict annMember) "2026-01-01").2
     annMember rfl⟩

end Gym
